import Mathlib

/-!
Verification of the email support-agent processing pipeline.

Shallow embedding of the core logic of the repository:
  - apps/emails/services/claude_service.py (sensitive-data masking, response
    handling for classification and reply generation)
  - apps/emails/tasks.py (process_email_task: routing decision engine,
    retry/backoff behaviour, audit logging)
  - apps/emails/services/email_fetcher.py (deduplicated ingestion)
  - apps/emails/services/email_sender.py (send outcome effects)
  - apps/emails/models.py (status enums, knowledge-base selection data)

Machine integers do not occur in the relevant code paths; confidences are
Python floats used only through order comparisons with decimal literals, and
are modelled as rationals.
-/

namespace EmailAgent

/-! ## Status enums, from apps/emails/models.py -/

/-- Email.STATUS_CHOICES in models.py. -/
inductive EmailStatus
  | new
  | processing
  | pending_review
  | replied
  | escalated
  | closed
  | spam
  deriving DecidableEq, Repr

/-- EmailReply.STATUS_CHOICES in models.py. -/
inductive ReplyStatus
  | draft
  | pending_approval
  | approved
  | sent
  | rejected
  deriving DecidableEq, Repr

/-- EmailProcessingLog status choices in models.py. -/
inductive LogStatus
  | started
  | completed
  | failed
  deriving DecidableEq, Repr

/-- One EmailProcessingLog row: the step name and its outcome. -/
structure LogEntry where
  step : String
  status : LogStatus
  deriving DecidableEq, Repr

/-- Result dictionary of ClaudeEmailAgent.classify_email (claude_service.py). -/
structure Classification where
  category : String
  confidence : ℚ
  priority : String
  sentiment : String
  requires_escalation : Bool
  escalation_reason : String
  extracted_info : List (String × String)
  deriving DecidableEq, Repr

/-- Result dictionary of ClaudeEmailAgent.generate_reply (claude_service.py). -/
structure ReplyData where
  reply : String
  confidence : ℚ
  requires_review : Bool
  used_articles : List String
  deriving DecidableEq, Repr

/-- A KnowledgeBase row (models.py): category name, title, use_count, is_active. -/
structure KBArticle where
  id : Nat
  category : String
  title : String
  use_count : Int
  is_active : Bool
  deriving DecidableEq, Repr

/-! ## String primitives mirroring the Python operations used by the source.

Python's str.replace replaces every non-overlapping occurrence, scanning left
to right; str.strip removes leading and trailing whitespace.  These are
re-implemented over the character list of the string so that every proof can
evaluate them inside the kernel. -/

/-- Whitespace as recognised by Python's str.strip and the regex class \s
(ASCII range). -/
def pySpace (c : Char) : Bool :=
  c == ' ' || c == '\t' || c == '\n' || c == '\r' || c == '\x0b' || c == '\x0c'

/-- Word characters for the regex \b boundary: letters, digits, underscore. -/
def pyWord (c : Char) : Bool :=
  c.isAlphanum || c == '_'

/-- Replace every non-overlapping occurrence of pat (nonempty in all uses)
by repl, scanning left to right; fuel bounds the number of steps. -/
def replaceAux (pat repl : List Char) : Nat → List Char → List Char
  | _, [] => []
  | 0, cs => cs
  | fuel + 1, c :: cs =>
    if pat.isPrefixOf (c :: cs) then
      repl ++ replaceAux pat repl fuel ((c :: cs).drop pat.length)
    else
      c :: replaceAux pat repl fuel cs

/-- Python str.replace for a nonempty pattern. -/
def pyReplace (s pat repl : String) : String :=
  String.mk (replaceAux pat.data repl.data s.data.length s.data)

/-- Python str.strip. -/
def pyStrip (s : String) : String :=
  String.mk (((s.data.dropWhile pySpace).reverse.dropWhile pySpace).reverse)

/-! ## The three sensitive-data pattern finders of mask_sensitive_data
(claude_service.py lines 27-63).

re.finditer scans positions left to right and, after each successful match,
resumes at the end of the match (matches do not overlap).  The three patterns
are deterministic enough that their Python backtracking semantics reduce to
the direct-scanning functions below:
  - credit cards:  \b\d followed by three groups of an optional single
    space-or-hyphen separator and four digits, closed by \b.  The optional
    separator is forced: it is taken exactly when the next character is a
    separator (a digit can never follow an untaken separator character).
  - SSNs: \b\d\d\d-\d\d-\d\d\d\d\b, fully literal.
  - passwords: a case-insensitive literal, one or more colon-or-space
    characters, then a captured maximal run of non-space characters.  The
    only genuine backtracking is at end of string, where the colon-or-space
    run gives characters back until the capture can start on a colon. -/

/-- Consume exactly n digits. -/
def takeDigits : Nat → List Char → Option (List Char × List Char)
  | 0, cs => some ([], cs)
  | _ + 1, [] => none
  | n + 1, c :: cs =>
    if c.isDigit then (takeDigits n cs).map (fun p => (c :: p.1, p.2)) else none

/-- Consume the optional single separator of the card pattern, class \s or
hyphen, greedily (which is forced, see above). -/
def takeSep : List Char → (List Char × List Char)
  | [] => ([], [])
  | c :: cs => if pySpace c || c == '-' then ([c], cs) else ([], c :: cs)

/-- Consume one expected literal character. -/
def takeChar (x : Char) : List Char → Option (List Char)
  | [] => none
  | c :: cs => if c == x then some cs else none

/-- A \b boundary holds before a word character when the previous character
is absent or not a word character. -/
def atBoundary (prev : Option Char) : Bool :=
  match prev with
  | none => true
  | some c => !pyWord c

/-- A \b boundary holds after a word character when the next character is
absent or not a word character. -/
def closesBoundary (cs : List Char) : Bool :=
  match cs with
  | [] => true
  | c :: _ => !pyWord c

/-- Attempt the card pattern at the current position; on success return the
matched text and the remainder of the input. -/
def matchCCAt (prev : Option Char) (cs : List Char) : Option (List Char × List Char) :=
  if atBoundary prev then
    match takeDigits 4 cs with
    | none => none
    | some (d1, r1) =>
      let (s1, r1s) := takeSep r1
      match takeDigits 4 r1s with
      | none => none
      | some (d2, r2) =>
        let (s2, r2s) := takeSep r2
        match takeDigits 4 r2s with
        | none => none
        | some (d3, r3) =>
          let (s3, r3s) := takeSep r3
          match takeDigits 4 r3s with
          | none => none
          | some (d4, r4) =>
            if closesBoundary r4 then
              some (d1 ++ s1 ++ d2 ++ s2 ++ d3 ++ s3 ++ d4, r4)
            else none
  else none

/-- Attempt the SSN pattern at the current position. -/
def matchSSNAt (prev : Option Char) (cs : List Char) : Option (List Char × List Char) :=
  if atBoundary prev then
    match takeDigits 3 cs with
    | none => none
    | some (d1, r1) =>
      match takeChar '-' r1 with
      | none => none
      | some r2 =>
        match takeDigits 2 r2 with
        | none => none
        | some (d2, r3) =>
          match takeChar '-' r3 with
          | none => none
          | some r4 =>
            match takeDigits 4 r4 with
            | none => none
            | some (d3, r5) =>
              if closesBoundary r5 then
                some (d1 ++ ('-' :: d2) ++ ('-' :: d3), r5)
              else none
  else none

/-- finditer scan for a positional matcher: try at every position, resume
after the end of each match; fuel is the input length. -/
def scanAux (m : Option Char → List Char → Option (List Char × List Char)) :
    Nat → Option Char → List Char → List (List Char)
  | 0, _, _ => []
  | _ + 1, _, [] => []
  | fuel + 1, prev, c :: cs =>
    match m prev (c :: cs) with
    | some (hit, rest) => hit :: scanAux m fuel (some (hit.getLastD c)) rest
    | none => scanAux m fuel (some c) cs

/-- All credit-card matches of the text, in order. -/
def findCC (s : String) : List String :=
  (scanAux matchCCAt s.data.length none s.data).map String.mk

/-- All SSN matches of the text, in order. -/
def findSSN (s : String) : List String :=
  (scanAux matchSSNAt s.data.length none s.data).map String.mk

/-- Characters of the regex class colon-or-\s. -/
def isColonSpace (c : Char) : Bool := c == ':' || pySpace c

/-- Characters of the regex class \S. -/
def isNonSpace (c : Char) : Bool := !pySpace c

/-- Case-insensitive literal match (the literal is given lowercase); returns
the remainder after the literal. -/
def matchLitCI : List Char → List Char → Option (List Char)
  | [], cs => some cs
  | _ :: _, [] => none
  | l :: ls, c :: cs => if c.toLower == l then matchLitCI ls cs else none

/-- End-of-string backtracking of the password tail: offsets j, j-1, ..., 1
into the colon-or-space run are tried until the capture can start on a
non-space character (necessarily a colon). -/
def pwdBacktrack (rest : List Char) : Nat → Option (List Char × List Char)
  | 0 => none
  | j + 1 =>
    match rest.drop (j + 1) with
    | c :: _ =>
      if isNonSpace c then
        let tail := rest.drop (j + 1)
        let grp := tail.takeWhile isNonSpace
        some (grp, tail.drop grp.length)
      else pwdBacktrack rest j
    | [] => pwdBacktrack rest j

/-- Match the tail of a password pattern after its literal: one or more
colon-or-space characters, then the captured maximal non-space run; returns
the captured group and the remainder after the whole match. -/
def matchPwdTail (rest : List Char) : Option (List Char × List Char) :=
  let k := (rest.takeWhile isColonSpace).length
  if k == 0 then none
  else
    match rest.drop k with
    | c :: cr =>
      let grp := (c :: cr).takeWhile isNonSpace
      some (grp, (c :: cr).drop grp.length)
    | [] => pwdBacktrack rest (k - 1)

/-- finditer scan for one password pattern literal; yields the captured
password values (group 1), in order.  The password patterns carry no \b, so
no previous-character state is needed. -/
def findPwdAux (lit : List Char) : Nat → List Char → List (List Char)
  | 0, _ => []
  | _ + 1, [] => []
  | fuel + 1, c :: cs =>
    match matchLitCI lit (c :: cs) with
    | some rest =>
      match matchPwdTail rest with
      | some (grp, rest2) => grp :: findPwdAux lit fuel rest2
      | none => findPwdAux lit fuel cs
    | none => findPwdAux lit fuel cs

/-- All password values captured by the three password patterns, pattern by
pattern in source order, each scanned over the original text. -/
def findPwd (s : String) : List String :=
  ((findPwdAux "password".data s.data.length s.data) ++
   (findPwdAux "pwd".data s.data.length s.data) ++
   (findPwdAux "pass".data s.data.length s.data)).map String.mk

/-! ## mask_sensitive_data / unmask_sensitive_data (claude_service.py 27-70).

The Python code finds matches in the original text, and for each match in
order appends a fresh token (indexed by the current size of the mapping) to
the mapping and replaces every occurrence of the matched value in the evolving
masked text.  The mapping is an insertion-ordered dictionary, modelled as an
association list. -/

/-- One masking phase: fold the matched values of one pattern family over the
running (maskedText, mapping) state. -/
def maskFold (tag : String) (vals : List String)
    (st : String × List (String × String)) : String × List (String × String) :=
  vals.foldl
    (fun st v =>
      let token := "[" ++ tag ++ "_" ++ toString st.2.length ++ "]"
      (pyReplace st.1 v token, st.2 ++ [(token, v)]))
    st

/-- mask_sensitive_data: card, SSN, then password phases, each finding
matches in the original text and replacing in the running masked text. -/
def mask_sensitive_data (text : String) : String × List (String × String) :=
  maskFold "PASSWORD" (findPwd text)
    (maskFold "SSN" (findSSN text)
      (maskFold "CARD" (findCC text) (text, [])))

/-- unmask_sensitive_data: replace each token by its original, in mapping
insertion order. -/
def unmask_sensitive_data (text : String) (mapping : List (String × String)) : String :=
  mapping.foldl (fun r p => pyReplace r p.1 p.2) text

/-! ## Response handling of the classification/generation client
(claude_service.py 147-294).

Both calls strip the response, remove optional code-fence wrapping, strip
again, and hand the result to Python's json module (an external collaborator,
modelled as a parse function parameter).  classify_email answers a parse
failure with a fixed safe default; generate_reply re-raises it. -/

/-- The code-fence stripping applied to every reasoning-service response. -/
def cleanResponse (s : String) : String :=
  pyStrip (pyReplace (pyReplace (pyStrip s) "```json\n" "") "\n```" "")

/-- The safe default classification returned on a JSON parse failure
(claude_service.py 173-181). -/
def classifyDefault : Classification where
  category := "general"
  confidence := 1/2
  priority := "medium"
  sentiment := "neutral"
  requires_escalation := false
  escalation_reason := ""
  extracted_info := [("issue_summary", "Classification failed")]

/-- The category names configured in models.py (EmailCategory.CATEGORY_CHOICES). -/
def configuredCategories : List String :=
  ["billing", "technical", "sales", "general", "complaint", "feature_request", "other"]

/-- classify_email's handling of the reasoning-service response body: strip
code fences, parse; return the parsed result unchanged on success and the
safe default on parse failure.  No validation of the parsed category occurs
in the source. -/
def classify_email_onResponse (parse : String → Option Classification)
    (responseText : String) : Classification :=
  match parse (cleanResponse responseText) with
  | some r => r
  | none => classifyDefault

/-- generate_reply's handling of the reasoning-service response body: strip
code fences, parse; on success unmask the reply and prepend the greeting; on
parse failure re-raise (claude_service.py 289-291), modelled as an error
value. -/
def generate_reply_onResponse (parse : String → Option ReplyData)
    (responseText : String) (mapping : List (String × String))
    (customer_name : String) : Except String ReplyData :=
  match parse (cleanResponse responseText) with
  | none => Except.error "JSONDecodeError"
  | some r =>
    let customer_greeting :=
      if customer_name.isEmpty then "Hello," else "Dear " ++ customer_name ++ ","
    Except.ok { r with
      reply := customer_greeting ++ "\n\n" ++ unmask_sensitive_data r.reply mapping }

/-! ## Knowledge selection (tasks.py 110-117). -/

/-- Descending use_count order used by order_by in tasks.py. -/
def useCountGE (a b : KBArticle) : Prop := b.use_count ≤ a.use_count

instance : DecidableRel useCountGE :=
  fun a b => inferInstanceAs (Decidable (b.use_count ≤ a.use_count))

instance : IsTotal KBArticle useCountGE :=
  ⟨fun a b => le_total b.use_count a.use_count⟩

instance : IsTrans KBArticle useCountGE :=
  ⟨fun _ _ _ hab hbc => le_trans hbc hab⟩

/-- KnowledgeBase.objects.filter(category=category, is_active=True)
.order_by descending use_count, bounded to 3. -/
def selectArticles (articles : List KBArticle) (category : String) : List KBArticle :=
  ((articles.filter (fun a => a.category == category && a.is_active)).insertionSort
    useCountGE).take 3

/-! ## process_email_task (tasks.py 47-235): the per-message routing pipeline.

One invocation of the task, after the classification result is available,
parametrised by the outcomes of the two external calls (reply generation and
outbound send).  The task fetches the email and immediately overwrites its
status with 'processing' (tasks.py 58-60); it never reads the prior status,
which is why the outcome below does not depend on the initialStatus argument.

Branches, as in the source:
  - requires_escalation: status 'escalated', escalation notification task
    queued, no generation call (tasks.py 98, 197-204);
  - generation raises: the outer except block logs a failed 'processing'
    entry, resets the status to 'new' and re-raises self.retry
    (tasks.py 217-235);
  - generation succeeds: a draft is created with status 'pending_approval'
    when requires_review else 'draft' (tasks.py 131-138), every supplied
    knowledge article's use_count is incremented (tasks.py 141-146), and
    when confidence ≥ threshold and not requires_review the draft is
    approved and sent (tasks.py 162-190: on send success the sender sets
    the draft 'sent' and the email 'replied'; on send failure the exception
    is swallowed, a failed 'auto_send' entry is logged, and the email keeps
    status 'processing'); otherwise the email is set 'pending_review'
    (tasks.py 191-195). -/

/-- Observable outcome of one process_email_task invocation. -/
structure PipelineOutcome where
  emailStatus : EmailStatus
  draftStatus : Option ReplyStatus
  sendAttempted : Bool
  sendSucceeded : Bool
  notifierTriggered : Bool
  generationCalled : Bool
  retryRaised : Bool
  logs : List LogEntry
  articleIncrements : List Nat
  deriving DecidableEq, Repr

/-- Shallow embedding of process_email_task, as described above. -/
def process_email_task (_initialStatus : EmailStatus) (cls : Classification)
    (genResult : Except String ReplyData) (sendResult : Except String Unit)
    (kb_articles : List KBArticle) (threshold : ℚ) : PipelineOutcome :=
  let baseLogs : List LogEntry :=
    [⟨"classification", .started⟩, ⟨"classification", .completed⟩]
  if !cls.requires_escalation then
    let logs1 := baseLogs ++ [⟨"reply_generation", .started⟩]
    match genResult with
    | .error _ =>
      { emailStatus := .new
        draftStatus := none
        sendAttempted := false
        sendSucceeded := false
        notifierTriggered := false
        generationCalled := true
        retryRaised := true
        logs := logs1 ++ [⟨"processing", .failed⟩]
        articleIncrements := [] }
    | .ok reply_data =>
      let initialDraft : ReplyStatus :=
        if reply_data.requires_review then .pending_approval else .draft
      let incr := kb_articles.map (fun a => a.id)
      let logs2 := logs1 ++ [⟨"reply_generation", .completed⟩]
      if threshold ≤ reply_data.confidence ∧ reply_data.requires_review = false then
        match sendResult with
        | .ok _ =>
          { emailStatus := .replied
            draftStatus := some .sent
            sendAttempted := true
            sendSucceeded := true
            notifierTriggered := false
            generationCalled := true
            retryRaised := false
            logs := logs2 ++ [⟨"auto_send", .completed⟩]
            articleIncrements := incr }
        | .error _ =>
          { emailStatus := .processing
            draftStatus := some .approved
            sendAttempted := true
            sendSucceeded := false
            notifierTriggered := false
            generationCalled := true
            retryRaised := false
            logs := logs2 ++ [⟨"auto_send", .failed⟩]
            articleIncrements := incr }
      else
        { emailStatus := .pending_review
          draftStatus := some initialDraft
          sendAttempted := false
          sendSucceeded := false
          notifierTriggered := false
          generationCalled := true
          retryRaised := false
          logs := logs2
          articleIncrements := incr }
  else
    { emailStatus := .escalated
      draftStatus := none
      sendAttempted := false
      sendSucceeded := false
      notifierTriggered := true
      generationCalled := false
      retryRaised := false
      logs := baseLogs
      articleIncrements := [] }

/-! ## Deduplicated ingestion (email_fetcher.py 90-158, models.py 88). -/

/-- The raw message delivered by IMAP, reduced to the fields the
deduplication logic touches. -/
structure RawEmail where
  message_id : String
  subject : String
  body : String
  deriving DecidableEq, Repr

/-- A stored Email row, reduced likewise. -/
structure StoredEmail where
  message_id : String
  subject : String
  body : String
  status : EmailStatus
  deriving DecidableEq, Repr

/-- _parse_email's persistence effect: if a row with the same message_id
exists the function returns None and stores nothing (email_fetcher.py
102-104); otherwise it creates one row with status 'new'
(email_fetcher.py 142-156). -/
def parse_email (store : List StoredEmail) (raw : RawEmail) :
    List StoredEmail × Option StoredEmail :=
  if store.any (fun e => e.message_id == raw.message_id) then (store, none)
  else
    let created : StoredEmail :=
      { message_id := raw.message_id, subject := raw.subject
        body := raw.body, status := .new }
    (store ++ [created], some created)

/-! ## Retry/backoff behaviour (tasks.py 47-48, 217-235).

process_email_task is a celery task with max_retries=3; on any unhandled
exception the except block records a failed audit entry, resets the email
status to 'new' and calls self.retry with countdown 60 * 2^retries.  The
celery collaborator re-runs the task while the retry count is below
max_retries and raises MaxRetriesExceededError afterwards.  The trace below
executes that loop under the hypothesis that the task body raises on every
attempt. -/

/-- The retry countdown of tasks.py line 235. -/
def retryCountdown (retries : Nat) : Nat := 60 * 2 ^ retries

/-- max_retries of the shared_task decorator (tasks.py line 47). -/
def max_retries : Nat := 3

/-- Observable trace of an always-failing sequence of task executions. -/
structure RetryTrace where
  finalStatus : EmailStatus
  statusAfterEach : List EmailStatus
  failedLogs : Nat
  delays : List Nat
  executions : Nat
  deriving DecidableEq, Repr

/-- One execution per step: the body raises, the except block resets the
status to 'new' and logs a failed entry; while retries remain the invocation
is rescheduled with the exponential countdown. -/
def celeryAlwaysFailAux (retries : Nat) (retriesLeft : Nat)
    (stats : List EmailStatus) (logs : Nat) (delays : List Nat)
    (execs : Nat) : RetryTrace :=
  match retriesLeft with
  | 0 =>
    { finalStatus := .new, statusAfterEach := stats ++ [.new]
      failedLogs := logs + 1, delays := delays, executions := execs + 1 }
  | n + 1 =>
    celeryAlwaysFailAux (retries + 1) n (stats ++ [.new]) (logs + 1)
      (delays ++ [retryCountdown retries]) (execs + 1)

/-- The full always-failing run of process_email_task under celery. -/
def celeryAlwaysFail (maxRetries : Nat) : RetryTrace :=
  celeryAlwaysFailAux 0 maxRetries [] 0 [] 0

/-! ## Concrete fixtures used by counterexamples and witnesses. -/

/-- A classification that does not require escalation. -/
def exCls : Classification where
  category := "billing"
  confidence := 9/10
  priority := "medium"
  sentiment := "neutral"
  requires_escalation := false
  escalation_reason := ""
  extracted_info := []

/-- A classification that requires escalation. -/
def exClsEsc : Classification where
  category := "complaint"
  confidence := 95/100
  priority := "urgent"
  sentiment := "negative"
  requires_escalation := true
  escalation_reason := "legal threat"
  extracted_info := []

/-- Generation result: confidence 0.79, no review required. -/
def exRd79 : ReplyData where
  reply := "reply body"
  confidence := 79/100
  requires_review := false
  used_articles := []

/-- Generation result: confidence 0.81, no review required. -/
def exRd81 : ReplyData where
  reply := "reply body"
  confidence := 81/100
  requires_review := false
  used_articles := []

/-- Generation result: confidence 0.95, review required. -/
def exRd95r : ReplyData where
  reply := "reply body"
  confidence := 95/100
  requires_review := true
  used_articles := []

/-! ## Claims -/

/-- Claim C1, counterexample: with threshold 0.8, confidence 0.79 and
requiresReview = false, the message is routed to pending_review but the
draft is created in status 'draft' (tasks.py line 137), not
'pending_approval' as the claim states for every non-auto-send case. -/
theorem C1_counterexample :
    (process_email_task .processing exCls (.ok exRd79) (.ok ()) [] (8/10)).emailStatus
        = EmailStatus.pending_review
    ∧ (process_email_task .processing exCls (.ok exRd79) (.ok ()) [] (8/10)).draftStatus
        = some ReplyStatus.draft
    ∧ some ReplyStatus.draft ≠ some ReplyStatus.pending_approval := by
  refine ⟨?_, ?_, by simp⟩ <;> norm_num [process_email_task, exCls, exRd79]

/-- Claim C1, amended: for a message in 'processing' with
requiresEscalation = false and a successful generation, the pipeline
attempts the auto-send exactly when confidence ≥ threshold and
requiresReview = false; in every other successful-generation case the
message transitions to 'pending_review' and the draft is in status
'pending_approval' exactly when requiresReview = true, remaining in status
'draft' when requiresReview = false with confidence below threshold. -/
theorem C1_amended (init : EmailStatus) (cls : Classification) (rd : ReplyData)
    (send : Except String Unit) (kb : List KBArticle) (threshold : ℚ)
    (hesc : cls.requires_escalation = false) :
    ((process_email_task init cls (.ok rd) send kb threshold).sendAttempted = true
      ↔ (threshold ≤ rd.confidence ∧ rd.requires_review = false))
    ∧ (¬(threshold ≤ rd.confidence ∧ rd.requires_review = false) →
        (process_email_task init cls (.ok rd) send kb threshold).emailStatus
            = EmailStatus.pending_review
        ∧ (process_email_task init cls (.ok rd) send kb threshold).draftStatus
            = some (if rd.requires_review then ReplyStatus.pending_approval
                    else ReplyStatus.draft)) := by
  by_cases hc : threshold ≤ rd.confidence ∧ rd.requires_review = false
  · refine ⟨?_, fun hn => absurd hc hn⟩
    cases send <;> simp [process_email_task, hesc, hc]
  · refine ⟨?_, fun _ => ?_⟩ <;> simp [process_email_task, hesc, hc]

/-- Claim C1, witness for the amended theorem at confidence 0.79,
requiresReview = false, threshold 0.8. -/
theorem C1_amended_witness :
    ((process_email_task .processing exCls (.ok exRd79) (.ok ()) [] (8/10)).sendAttempted = true
      ↔ ((8/10 : ℚ) ≤ exRd79.confidence ∧ exRd79.requires_review = false))
    ∧ (¬((8/10 : ℚ) ≤ exRd79.confidence ∧ exRd79.requires_review = false) →
        (process_email_task .processing exCls (.ok exRd79) (.ok ()) [] (8/10)).emailStatus
            = EmailStatus.pending_review
        ∧ (process_email_task .processing exCls (.ok exRd79) (.ok ()) [] (8/10)).draftStatus
            = some (if exRd79.requires_review then ReplyStatus.pending_approval
                    else ReplyStatus.draft)) :=
  C1_amended .processing exCls exRd79 (.ok ()) [] (8/10) rfl

/-- Claim C3, counterexample: for a text that already contains the masking
token [CARD_0] next to a card number, masking replaces every occurrence of
the card number by that same token, and unmasking restores both token
occurrences, so the round trip does not reproduce the original text. -/
theorem C3_counterexample :
    unmask_sensitive_data
        (mask_sensitive_data "[CARD_0] 4111 1111 1111 1111").1
        (mask_sensitive_data "[CARD_0] 4111 1111 1111 1111").2
      ≠ "[CARD_0] 4111 1111 1111 1111" := by
  decide

/-- Claim C3, amended: the unmask-mask round trip is guaranteed for every
text in which none of the recognized sensitive patterns occurs; such a text
is masked to itself with an empty token map.  (With patterns present the
round trip can fail, e.g. when the text already contains a masking token.) -/
theorem C3_amended (t : String) (h1 : findCC t = []) (h2 : findSSN t = [])
    (h3 : findPwd t = []) :
    mask_sensitive_data t = (t, [])
    ∧ unmask_sensitive_data (mask_sensitive_data t).1 (mask_sensitive_data t).2 = t := by
  have hm : mask_sensitive_data t = (t, []) := by
    simp [mask_sensitive_data, h1, h2, h3, maskFold]
  exact ⟨hm, by rw [hm]; rfl⟩

/-- Claim C3, witness for the amended theorem on a pattern-free text. -/
theorem C3_amended_witness :
    mask_sensitive_data "hello world" = ("hello world", [])
    ∧ unmask_sensitive_data (mask_sensitive_data "hello world").1
        (mask_sensitive_data "hello world").2 = "hello world" :=
  C3_amended "hello world" (by decide) (by decide) (by decide)

/-- A syntactically valid classification whose category is outside the
configured set, as the json module would deliver it for a well-formed JSON
response body. -/
def bogusClassification : Classification where
  category := "made_up_category"
  confidence := 9/10
  priority := "high"
  sentiment := "negative"
  requires_escalation := true
  escalation_reason := "r"
  extracted_info := []

/-- Claim C4, counterexample: a response that parses successfully but whose
category lies outside the configured category set is returned unchanged by
classify_email; the source never validates the category, so the safe
default is not applied in that case. -/
theorem C4_counterexample :
    classify_email_onResponse (fun _ => some bogusClassification) "irrelevant"
        = bogusClassification
    ∧ bogusClassification.category ∉ configuredCategories
    ∧ bogusClassification ≠ classifyDefault := by
  refine ⟨rfl, by decide, fun h => ?_⟩
  exact absurd (congrArg Classification.category h) (by decide)

/-- Claim C4, amended: whenever the response body (after code-fence
stripping) fails to parse as JSON, classify_email returns exactly the safe
default and does not raise; a successfully parsed result, however, is
returned as-is even when its category is outside the configured set. -/
theorem C4_amended (parse : String → Option Classification) (resp : String)
    (h : parse (cleanResponse resp) = none) :
    classify_email_onResponse parse resp = classifyDefault := by
  simp [classify_email_onResponse, h]

/-- Claim C4, witness: a concrete always-failing parse on a concrete
response body. -/
theorem C4_amended_witness :
    classify_email_onResponse (fun _ => none) "this is not json" = classifyDefault :=
  C4_amended (fun _ => none) "this is not json" rfl

/-- Claim C7: a message that fails on every attempt is retried exactly
max_retries = 3 times, with the strictly increasing delays
60 * 2^attempt = [60, 120, 240]; every failed attempt resets the status to
'new' and records a failed audit entry; after exhaustion the message is left
in 'new', never in 'closed' or 'replied'. -/
theorem C7_retry_exhaustion :
    (celeryAlwaysFail max_retries).delays = [60, 120, 240]
    ∧ (celeryAlwaysFail max_retries).delays = (List.range max_retries).map retryCountdown
    ∧ List.Chain' (· < ·) (celeryAlwaysFail max_retries).delays
    ∧ (celeryAlwaysFail max_retries).finalStatus = EmailStatus.new
    ∧ (celeryAlwaysFail max_retries).finalStatus ≠ EmailStatus.closed
    ∧ (celeryAlwaysFail max_retries).finalStatus ≠ EmailStatus.replied
    ∧ (celeryAlwaysFail max_retries).executions = max_retries + 1
    ∧ (celeryAlwaysFail max_retries).failedLogs = (celeryAlwaysFail max_retries).executions
    ∧ (celeryAlwaysFail max_retries).statusAfterEach
        = List.replicate (max_retries + 1) EmailStatus.new := by
  have hd : (celeryAlwaysFail max_retries).delays = [60, 120, 240] := by decide
  refine ⟨hd, by decide, ?_, by decide, by decide, by decide, by decide, by decide, by decide⟩
  rw [hd]
  simp [List.chain'_cons]

/-- Claim C8: ingesting a raw message whose identifier is not yet stored
creates exactly one record with that identifier, and a second ingestion of
the same identifier is a no-op: it returns the store unchanged and creates
nothing. -/
theorem C8_dedup (store : List StoredEmail) (raw : RawEmail)
    (h : ∀ e ∈ store, e.message_id ≠ raw.message_id) :
    ((parse_email store raw).1.filter
        (fun e => e.message_id == raw.message_id)).length = 1
    ∧ parse_email (parse_email store raw).1 raw = ((parse_email store raw).1, none) := by
  have hany : store.any (fun e => e.message_id == raw.message_id) = false := by
    rw [List.any_eq_false]
    intro e he
    simpa using h e he
  have h1 : parse_email store raw
      = (store ++ [⟨raw.message_id, raw.subject, raw.body, .new⟩],
         some ⟨raw.message_id, raw.subject, raw.body, .new⟩) := by
    simp [parse_email, hany]
  constructor
  · rw [h1]
    rw [List.filter_append]
    have hnil : store.filter (fun e => e.message_id == raw.message_id) = [] := by
      rw [List.filter_eq_nil_iff]
      intro e he
      simpa using h e he
    simp [hnil]
  · rw [h1]
    simp [parse_email, List.any_append]

/-- Claim C8, witness: ingesting into an empty store. -/
theorem C8_dedup_witness :
    ((parse_email [] ⟨"msg-1", "s", "b"⟩).1.filter
        (fun e => e.message_id == "msg-1")).length = 1
    ∧ parse_email (parse_email [] ⟨"msg-1", "s", "b"⟩).1 ⟨"msg-1", "s", "b"⟩
        = ((parse_email [] ⟨"msg-1", "s", "b"⟩).1, none) :=
  C8_dedup [] ⟨"msg-1", "s", "b"⟩ (by simp)

/-- A knowledge article fixture. -/
def exArtA : KBArticle := ⟨1, "billing", "A", 5, true⟩

/-- A second knowledge article fixture. -/
def exArtB : KBArticle := ⟨2, "billing", "B", 3, true⟩

/-- A generation result that reports only article "A" as used. -/
def exRdUsedA : ReplyData where
  reply := "reply body"
  confidence := 9/10
  requires_review := false
  used_articles := ["A"]

/-- Claim C9, counterexample: both supplied candidate articles have their
use counters incremented although the generation result reports only "A" as
used; the increment is per candidate supplied, not per reported use
(tasks.py 144-146 iterates over kb_articles, ignoring used_articles). -/
theorem C9_counterexample :
    (process_email_task .processing exCls (.ok exRdUsedA) (.ok ())
        [exArtA, exArtB] (8/10)).articleIncrements = [1, 2]
    ∧ exArtB.title ∉ exRdUsedA.used_articles := by
  constructor
  · norm_num [process_email_task, exCls, exRdUsedA, exArtA, exArtB]
  · decide

/-- Claim C9, amended: the knowledge selection returns only active articles
of the requested category, in descending use-counter order, bounded to 3;
and after a successful generation call every candidate article supplied to
the call is incremented exactly once, regardless of which articles the
generation result reports as used. -/
theorem C9_amended (articles : List KBArticle) (cat : String)
    (init : EmailStatus) (cls : Classification) (rd : ReplyData)
    (send : Except String Unit) (th : ℚ)
    (hesc : cls.requires_escalation = false) :
    (selectArticles articles cat).length ≤ 3
    ∧ (∀ a ∈ selectArticles articles cat, a.is_active = true ∧ a.category = cat)
    ∧ List.Sorted useCountGE (selectArticles articles cat)
    ∧ (process_email_task init cls (.ok rd) send (selectArticles articles cat) th).articleIncrements
        = (selectArticles articles cat).map (fun a => a.id) := by
  refine ⟨?_, ?_, ?_, ?_⟩
  · rw [selectArticles, List.length_take]
    exact min_le_left _ _
  · intro a ha
    have hmem : a ∈ (articles.filter
        (fun a => a.category == cat && a.is_active)).insertionSort useCountGE :=
      List.mem_of_mem_take ha
    have hmem2 : a ∈ articles.filter (fun a => a.category == cat && a.is_active) :=
      ((List.perm_insertionSort useCountGE _).mem_iff).mp hmem
    have hp := List.of_mem_filter hmem2
    simp only [Bool.and_eq_true, beq_iff_eq] at hp
    exact ⟨hp.2, hp.1⟩
  · exact List.Pairwise.sublist (List.take_sublist 3 _)
      (List.sorted_insertionSort useCountGE _)
  · by_cases hc : th ≤ rd.confidence ∧ rd.requires_review = false
    · cases send <;> simp [process_email_task, hesc, hc]
    · simp [process_email_task, hesc, hc]

/-- Claim C9, witness for the amended theorem on a concrete article pool. -/
theorem C9_amended_witness :
    (selectArticles [exArtA, exArtB] "billing").length ≤ 3
    ∧ (∀ a ∈ selectArticles [exArtA, exArtB] "billing",
        a.is_active = true ∧ a.category = "billing")
    ∧ List.Sorted useCountGE (selectArticles [exArtA, exArtB] "billing")
    ∧ (process_email_task .processing exCls (.ok exRdUsedA) (.ok ())
          (selectArticles [exArtA, exArtB] "billing") (8/10)).articleIncrements
        = (selectArticles [exArtA, exArtB] "billing").map (fun a => a.id) :=
  C9_amended [exArtA, exArtB] "billing" .processing exCls exRdUsedA (.ok ()) (8/10) rfl

/-- Claim C2: tasks.py 54-60 contains no terminal-state guard: a redelivered
invocation on an email already in the terminal status 'closed' re-enters the
pipeline, overwrites the status, creates a fresh draft and sends it again,
instead of being the safe no-op the claim requires.  This theorem evaluates
the embedded task at that failing input. -/
theorem C2_code_behavior :
    (process_email_task .closed exCls (.ok exRd81) (.ok ()) [] (8/10)).sendAttempted = true
    ∧ (process_email_task .closed exCls (.ok exRd81) (.ok ()) [] (8/10)).draftStatus
        = some ReplyStatus.sent
    ∧ (process_email_task .closed exCls (.ok exRd81) (.ok ()) [] (8/10)).emailStatus
        ≠ EmailStatus.closed := by
  refine ⟨?_, ?_, ?_⟩ <;> norm_num [process_email_task, exCls, exRd81]
  decide

/-- Claim C5: a generateReply response that fails structured-output parsing
is re-raised (never silently defaulted), and the task then creates no draft,
resets the message from 'processing' to 'new' and re-raises for retry. -/
theorem C5_generation_hard_failure (parse : String → Option ReplyData)
    (resp : String) (mapping : List (String × String)) (cname : String)
    (init : EmailStatus) (cls : Classification) (e : String)
    (send : Except String Unit) (kb : List KBArticle) (th : ℚ)
    (hparse : parse (cleanResponse resp) = none)
    (hesc : cls.requires_escalation = false) :
    generate_reply_onResponse parse resp mapping cname = .error "JSONDecodeError"
    ∧ (process_email_task init cls (.error e) send kb th).draftStatus = none
    ∧ (process_email_task init cls (.error e) send kb th).emailStatus = EmailStatus.new
    ∧ (process_email_task init cls (.error e) send kb th).retryRaised = true := by
  refine ⟨?_, ?_, ?_, ?_⟩ <;>
    simp [generate_reply_onResponse, hparse, process_email_task, hesc]

/-- Claim C5, witness: a concrete unparsable response and a concrete failing
generation call. -/
theorem C5_generation_hard_failure_witness :
    generate_reply_onResponse (fun _ => none) "not json" [] "" = .error "JSONDecodeError"
    ∧ (process_email_task .processing exCls (.error "boom") (.ok ()) [] (8/10)).draftStatus
        = none
    ∧ (process_email_task .processing exCls (.error "boom") (.ok ()) [] (8/10)).emailStatus
        = EmailStatus.new
    ∧ (process_email_task .processing exCls (.error "boom") (.ok ()) [] (8/10)).retryRaised
        = true :=
  C5_generation_hard_failure (fun _ => none) "not json" [] "" .processing exCls
    "boom" (.ok ()) [] (8/10) rfl rfl

/-- Claim C6: requiresEscalation = true always routes the message to
'escalated', makes no generation call, creates no draft, triggers the
escalation notifier, and does so regardless of confidence values (the
classification and generation inputs are universally quantified). -/
theorem C6_escalation_precedence (init : EmailStatus) (cls : Classification)
    (gen : Except String ReplyData) (send : Except String Unit)
    (kb : List KBArticle) (th : ℚ)
    (h : cls.requires_escalation = true) :
    (process_email_task init cls gen send kb th).emailStatus = EmailStatus.escalated
    ∧ (process_email_task init cls gen send kb th).generationCalled = false
    ∧ (process_email_task init cls gen send kb th).draftStatus = none
    ∧ (process_email_task init cls gen send kb th).notifierTriggered = true
    ∧ (process_email_task init cls gen send kb th).sendAttempted = false := by
  refine ⟨?_, ?_, ?_, ?_, ?_⟩ <;> simp [process_email_task, h]

/-- Claim C6, witness at a concrete escalating classification with
confidence 0.95 and a high-confidence generation result available. -/
theorem C6_escalation_precedence_witness :
    (process_email_task .processing exClsEsc (.ok exRd81) (.ok ()) [] (8/10)).emailStatus
        = EmailStatus.escalated
    ∧ (process_email_task .processing exClsEsc (.ok exRd81) (.ok ()) [] (8/10)).generationCalled
        = false
    ∧ (process_email_task .processing exClsEsc (.ok exRd81) (.ok ()) [] (8/10)).draftStatus
        = none
    ∧ (process_email_task .processing exClsEsc (.ok exRd81) (.ok ()) [] (8/10)).notifierTriggered
        = true
    ∧ (process_email_task .processing exClsEsc (.ok exRd81) (.ok ()) [] (8/10)).sendAttempted
        = false :=
  C6_escalation_precedence .processing exClsEsc (.ok exRd81) (.ok ()) [] (8/10) rfl

/-- Claim C10: for an auto-approved draft, a successful send moves the draft
to 'sent' and the message to 'replied'; a failed send leaves the draft
'approved' (never 'sent'), records a failed auto_send audit entry, swallows
the exception (no retry, no reset to 'new') and leaves the message in
'processing'. -/
theorem C10_auto_send_failure (init : EmailStatus) (cls : Classification)
    (rd : ReplyData) (e : String) (kb : List KBArticle) (th : ℚ)
    (hesc : cls.requires_escalation = false)
    (hconf : th ≤ rd.confidence) (hrev : rd.requires_review = false) :
    ((process_email_task init cls (.ok rd) (.ok ()) kb th).draftStatus
        = some ReplyStatus.sent
      ∧ (process_email_task init cls (.ok rd) (.ok ()) kb th).emailStatus
        = EmailStatus.replied)
    ∧ ((process_email_task init cls (.ok rd) (.error e) kb th).draftStatus
        = some ReplyStatus.approved
      ∧ (process_email_task init cls (.ok rd) (.error e) kb th).draftStatus
        ≠ some ReplyStatus.sent
      ∧ LogEntry.mk "auto_send" .failed
          ∈ (process_email_task init cls (.ok rd) (.error e) kb th).logs
      ∧ (process_email_task init cls (.ok rd) (.error e) kb th).retryRaised = false
      ∧ (process_email_task init cls (.ok rd) (.error e) kb th).emailStatus
        = EmailStatus.processing) := by
  have hc : th ≤ rd.confidence ∧ rd.requires_review = false := ⟨hconf, hrev⟩
  refine ⟨⟨?_, ?_⟩, ?_, ?_, ?_, ?_, ?_⟩ <;> simp [process_email_task, hesc, hc]

/-- Claim C10, witness at confidence 0.81, threshold 0.8, with both send
outcomes evaluated. -/
theorem C10_auto_send_failure_witness :
    ((process_email_task .processing exCls (.ok exRd81) (.ok ()) [] (8/10)).draftStatus
        = some ReplyStatus.sent
      ∧ (process_email_task .processing exCls (.ok exRd81) (.ok ()) [] (8/10)).emailStatus
        = EmailStatus.replied)
    ∧ ((process_email_task .processing exCls (.ok exRd81) (.error "smtp down") [] (8/10)).draftStatus
        = some ReplyStatus.approved
      ∧ (process_email_task .processing exCls (.ok exRd81) (.error "smtp down") [] (8/10)).draftStatus
        ≠ some ReplyStatus.sent
      ∧ LogEntry.mk "auto_send" .failed
          ∈ (process_email_task .processing exCls (.ok exRd81) (.error "smtp down") [] (8/10)).logs
      ∧ (process_email_task .processing exCls (.ok exRd81) (.error "smtp down") [] (8/10)).retryRaised
        = false
      ∧ (process_email_task .processing exCls (.ok exRd81) (.error "smtp down") [] (8/10)).emailStatus
        = EmailStatus.processing) :=
  C10_auto_send_failure .processing exCls exRd81 "smtp down" [] (8/10) rfl (by norm_num [exRd81]) rfl

end EmailAgent
